import Mathlib

/-!
Verification development for the file-type detection and metadata-extraction
pipeline of the metadata-viewer repository
(src/lib/enhanced-metadata-extractor.ts).

The TypeScript source is shallowly embedded: byte buffers are lists of
naturals (each element a byte value), JavaScript strings are Lean strings,
thrown exceptions are the error branch of Except carrying the message
string, and the browser and third-party library collaborators
(file-type sniffing, exifr, music-metadata, pdf-lib, image and video
decoding, object-URL minting) are fields of an Env record, since the core
treats each as a black box with a fixed input/output contract.
JavaScript numbers that only pass through the pipeline unmodified are
carried as Nat or Int; where the source formats floating-point values
(megapixels, fractional exposure times) the comment at the definition
records the abstraction, and no claim examines those values.
-/

/-! ### Basic JavaScript-style string and list helpers -/

/-- Lower-case an ASCII letter, identity elsewhere.  Models
String.prototype.toLowerCase for the ASCII inputs the pipeline uses. -/
def lowerChar (c : Char) : Char :=
  if 'A' ≤ c ∧ c ≤ 'Z' then Char.ofNat (c.toNat + 32) else c

/-- Upper-case an ASCII letter, identity elsewhere.  Models
String.prototype.toUpperCase for hexadecimal digit strings. -/
def upperChar (c : Char) : Char :=
  if 'a' ≤ c ∧ c ≤ 'z' then Char.ofNat (c.toNat - 32) else c

/-- Split a character list at every occurrence of the separator, keeping
empty chunks, exactly like String.prototype.split with a single-character
separator: the result is never empty. -/
def splitChar (c : Char) : List Char → List (List Char)
  | [] => [[]]
  | x :: xs =>
    match splitChar c xs with
    | [] => [[]]
    | g :: gs => if x = c then [] :: g :: gs else (x :: g) :: gs

/-- Split a character list at every character satisfying the predicate,
keeping empty chunks. -/
def splitPred (p : Char → Bool) : List Char → List (List Char)
  | [] => [[]]
  | x :: xs =>
    match splitPred p xs with
    | [] => [[]]
    | g :: gs => if p x then [] :: g :: gs else (x :: g) :: gs

/-- Substring containment on character lists, modelling
String.prototype.includes. -/
def containsSub (sub : List Char) : List Char → Bool
  | [] => sub.isEmpty
  | x :: xs => sub.isPrefixOf (x :: xs) || containsSub sub xs

/-- Prefix test on strings, modelling String.prototype.startsWith. -/
def jsStartsWith (s p : String) : Bool :=
  p.data.isPrefixOf s.data

/-- Characters matched by the JavaScript regular-expression class backslash-s
for the ASCII range (space, tab, line feed, carriage return, form feed,
vertical tab). -/
def jsIsSpace (c : Char) : Bool :=
  c = ' ' || c = '\t' || c = '\n' || c = '\r' || c = '\x0c' || c = '\x0b'

/-- Trim leading and trailing whitespace, modelling String.prototype.trim on
the ASCII range. -/
def jsTrim (l : List Char) : List Char :=
  ((l.dropWhile jsIsSpace).reverse.dropWhile jsIsSpace).reverse

/-- Extension extraction used twice in the source
(filename.split, pop, toLowerCase, with empty-string fallback):
the lower-cased text after the last dot, or the whole lower-cased name when
it has no dot. -/
def jsExtension (name : String) : String :=
  ⟨((splitChar '.' name.data).getLastD []).map lowerChar⟩

/-- JavaScript truthiness fallback on an optional string
(the pattern value-or-default with the logical-or operator): an absent or
empty string yields the default. -/
def jsOrDefault (o : Option String) (d : String) : String :=
  match o with
  | some s => if s = "" then d else s
  | none => d

/-- JavaScript pattern string-or-undefined: an absent or empty string
collapses to absent. -/
def jsOrUndef (o : Option String) : Option String :=
  match o with
  | some s => if s = "" then none else some s
  | none => none

/-- JavaScript truthiness fallback on an optional number: absent or zero
yields the default. -/
def jsOrNum (o : Option Nat) (d : Nat) : Nat :=
  match o with
  | some n => if n = 0 then d else n
  | none => d

/-- Lower-case hexadecimal digit. -/
def hexDigit (n : Nat) : Char :=
  if n < 10 then Char.ofNat (48 + n) else Char.ofNat (87 + n)

/-- Fuel-driven core of Number.prototype.toString with radix 16; the fuel
argument bounds the recursion depth and is always sufficient because the
value shrinks by a factor of 16 each step. -/
def natToHexAux : Nat → Nat → List Char
  | 0, n => [hexDigit (n % 16)]
  | fuel + 1, n =>
    if n < 16 then [hexDigit n] else natToHexAux fuel (n / 16) ++ [hexDigit (n % 16)]

/-- Lower-case hexadecimal rendering of a natural number, modelling
Number.prototype.toString with radix 16 on non-negative integers. -/
def natToHex (n : Nat) : List Char :=
  natToHexAux n n

/-- Left padding with a fill character, modelling String.prototype.padStart. -/
def padStart (l : List Char) (n : Nat) (c : Char) : List Char :=
  List.replicate (n - l.length) c ++ l

/-- Two-digit lower-case hexadecimal rendering of a byte. -/
def hexByte (b : Nat) : List Char :=
  padStart (natToHex b) 2 '0'

/-- Join character-list chunks with a single space, modelling
Array.prototype.join with a space separator. -/
def joinSpace : List (List Char) → List Char
  | [] => []
  | [x] => x
  | x :: y :: xs => x ++ ' ' :: joinSpace (y :: xs)

/-! ### Byte-buffer reads

DataView reads are big-endian and throw a range error past the end of the
buffer; the embedding returns none there, and each caller maps that branch
to whatever the surrounding try/catch of the source does. -/

/-- Big-endian 16-bit read at an offset, modelling DataView.getUint16;
none models the thrown range error. -/
def getUint16? (b : List Nat) (off : Nat) : Option Nat :=
  match b[off]?, b[off + 1]? with
  | some hi, some lo => some (256 * hi + lo)
  | _, _ => none

/-- Byte read at an offset, modelling DataView.getUint8; none models the
thrown range error. -/
def getUint8? (b : List Nat) (off : Nat) : Option Nat :=
  b[off]?

/-! ### File categories (source: determineFileCategory, lines 745 to 768) -/

/-- Closed category enumeration of the pipeline. -/
inductive FileCategory where
  | image
  | video
  | audio
  | document
  | archive
  | text
  | other
deriving DecidableEq, Repr

/-- Document extension table of determineFileCategory. -/
def documentExts : List String := ["pdf", "doc", "docx", "txt", "rtf", "odt", "pages"]

/-- Archive extension table of determineFileCategory. -/
def archiveExts : List String := ["zip", "rar", "7z", "tar", "gz", "bz2", "xz"]

/-- Image extension table of determineFileCategory. -/
def imageExts : List String := ["jpg", "jpeg", "png", "gif", "bmp", "webp", "svg", "tiff", "ico"]

/-- Video extension table of determineFileCategory. -/
def videoExts : List String := ["mp4", "avi", "mov", "wmv", "flv", "webm", "mkv", "m4v"]

/-- Audio extension table of determineFileCategory. -/
def audioExts : List String := ["mp3", "wav", "flac", "aac", "ogg", "m4a", "wma"]

/-- Text extension table of determineFileCategory. -/
def textExts : List String :=
  ["txt", "md", "json", "xml", "html", "css", "js", "ts", "py", "java", "cpp", "c", "h"]

/-- Category classifier, translated line for line from determineFileCategory:
four MIME-prefix tests, then the six extension tables in order, then other. -/
def determineFileCategory (mimeType filename : String) : FileCategory :=
  if jsStartsWith mimeType "image/" then .image
  else if jsStartsWith mimeType "video/" then .video
  else if jsStartsWith mimeType "audio/" then .audio
  else if jsStartsWith mimeType "text/" then .text
  else
    let extension := jsExtension filename
    if documentExts.contains extension then .document
    else if archiveExts.contains extension then .archive
    else if imageExts.contains extension then .image
    else if videoExts.contains extension then .video
    else if audioExts.contains extension then .audio
    else if textExts.contains extension then .text
    else .other

/-- The extension-table tail of determineFileCategory on its own, used to
state the precedence claim: table consultation in source order with the
default category other. -/
def extTableCategory (e : String) : FileCategory :=
  if documentExts.contains e then .document
  else if archiveExts.contains e then .archive
  else if imageExts.contains e then .image
  else if videoExts.contains e then .video
  else if audioExts.contains e then .audio
  else if textExts.contains e then .text
  else .other

/-- Effective MIME type at the call site of determineFileCategory
(line 128 of the source): the sniffed MIME with JavaScript logical-or
fallback to the declared one, so both an absent sniff result and an empty
sniffed string fall back. -/
def effectiveMime (sniffed : Option String) (declared : String) : String :=
  match sniffed with
  | some m => if m = "" then declared else m
  | none => declared

/-! ### JPEG marker-segment analysis (source: analyzeJPEGStructure,
lines 657 to 743) -/

/-- JFIF block of the JPEG structural analysis. -/
structure JfifInfo where
  version : Option String := none
  resolutionUnit : Option String := none
  xResolution : Option Nat := none
  yResolution : Option Nat := none
deriving DecidableEq, Repr

/-- Encoding block of the JPEG structural analysis. -/
structure EncodingInfo where
  process : Option String := none
  bitsPerSample : Option Nat := none
  colorComponents : Option Nat := none
  subSampling : Option String := none
deriving DecidableEq, Repr

/-- Result record of analyzeJPEGStructure.  The source initialises it with
two empty objects, so both blocks are present from the start. -/
structure JpegResult where
  encoding : Option EncodingInfo := none
  jfif : Option JfifInfo := none
deriving DecidableEq, Repr

/-- Identifier bytes of a JFIF APP0 segment: the five bytes that the source
decodes from the segment and compares with the string JFIF followed by a
NUL character.  The WHATWG text decoder maps exactly this byte sequence to
that string, so the comparison is byte-exact. -/
def jfifIdentifierBytes : List Nat := [0x4A, 0x46, 0x49, 0x46, 0x00]

/-- JFIF version string of the source: major version, a dot, and the minor
version left-padded to two digits. -/
def jfifVersionString (major minor : Nat) : String :=
  ⟨natToHexDecimalHack major ++ '.' :: padStart (natToHexDecimalHack minor) 2 '0'⟩
where
  /-- Decimal rendering helper; Nat.repr is the decimal toString. -/
  natToHexDecimalHack (n : Nat) : List Char := (Nat.repr n).data

/-- Marker-walking loop of analyzeJPEGStructure.  The source loop runs while
the offset is below the buffer length minus one; each iteration advances the
offset by at least two, so the buffer length bounds the number of
iterations and the fuel argument (instantiated with the buffer length) is
always sufficient.  A failed DataView read models the thrown range error,
which the outer catch of the source converts into returning the
partially-built result. -/
def jpegLoop (b : List Nat) : Nat → Nat → JpegResult → JpegResult
  | 0, _, acc => acc
  | fuel + 1, offset, acc =>
    if offset < b.length - 1 then
      match getUint16? b offset with
      | none => acc
      | some marker =>
        if marker / 256 ≠ 0xFF then acc
        else
          let markerType := marker % 256
          let off2 := offset + 2
          if markerType = 0xE0 then
            match getUint16? b off2 with
            | none => acc
            | some len =>
              let identifier := (b.drop (off2 + 2)).take 5
              if identifier = jfifIdentifierBytes then
                match getUint8? b (off2 + 7), getUint8? b (off2 + 8), getUint8? b (off2 + 9),
                      getUint16? b (off2 + 10), getUint16? b (off2 + 12) with
                | some majorVersion, some minorVersion, some units, some xDensity, some yDensity =>
                  let jf : JfifInfo :=
                    { version := some (jfifVersionString majorVersion minorVersion),
                      resolutionUnit :=
                        some (if units = 0 then "None" else if units = 1 then "inches" else "cm"),
                      xResolution := some xDensity,
                      yResolution := some yDensity }
                  jpegLoop b fuel (off2 + len) { acc with jfif := some jf }
                | _, _, _, _, _ => acc
              else
                jpegLoop b fuel (off2 + len) acc
          else if markerType = 0xC0 then
            match getUint16? b off2, getUint8? b (off2 + 2), getUint8? b (off2 + 7) with
            | some len, some precision, some components =>
              let enc : EncodingInfo :=
                { process := some "Baseline DCT, Huffman coding",
                  bitsPerSample := some precision,
                  colorComponents := some components,
                  subSampling := if components = 3 then some "YCbCr4:2:0 (2 2)" else none }
              jpegLoop b fuel (off2 + len) { acc with encoding := some enc }
            | _, _, _ => acc
          else
            match getUint16? b off2 with
            | none => acc
            | some len => jpegLoop b fuel (off2 + len) acc
    else acc

/-- JPEG structural analysis, translated from analyzeJPEGStructure: the
result starts with both blocks present as empty objects, the start-of-image
marker is checked first (a failed read models the caught range error on a
buffer shorter than two bytes), and the marker walk starts at offset two. -/
def analyzeJPEGStructure (b : List Nat) : JpegResult :=
  let init : JpegResult := { encoding := some {}, jfif := some {} }
  match getUint16? b 0 with
  | none => init
  | some w => if w ≠ 0xFFD8 then init else jpegLoop b b.length 2 init

/-! ### EXIF data model (source: the exifr collaborator output and the
processed ExifData record, lines 282 to 314) -/

/-- Raw tag mapping returned by the exifr collaborator, restricted to the
tags the pick list of the source requests and the result record reads.
Every tag is optional.  Numeric tags that the source only passes through or
compares with integer tables are carried as Nat; GPS coordinates, which the
source only tests for truthiness, are carried as Int. -/
structure ExifRaw where
  Make : Option String := none
  Model : Option String := none
  Software : Option String := none
  ISO : Option Nat := none
  FNumber : Option Nat := none
  ExposureTime : Option Nat := none
  FocalLength : Option Nat := none
  FocalLengthIn35mmFormat : Option Nat := none
  Flash : Option Nat := none
  WhiteBalance : Option Nat := none
  MeteringMode : Option Nat := none
  ExposureMode : Option Nat := none
  SceneCaptureType : Option Nat := none
  DateTime : Option String := none
  DateTimeOriginal : Option String := none
  DateTimeDigitized : Option String := none
  GPSLatitude : Option Int := none
  GPSLongitude : Option Int := none
  GPSAltitude : Option Int := none
  Orientation : Option Nat := none
  ColorSpace : Option Nat := none
  ImageWidth : Option Nat := none
  ImageHeight : Option Nat := none
  XResolution : Option Nat := none
  YResolution : Option Nat := none
  ResolutionUnit : Option Nat := none
  LensModel : Option String := none
  LensMake : Option String := none
  LensSerialNumber : Option String := none
  BitsPerSample : Option Nat := none
  Compression : Option Nat := none
deriving DecidableEq, Repr

/-- Processed ExifData record built by the image extractor. -/
structure ExifProcessed where
  make : Option String := none
  model : Option String := none
  software : Option String := none
  iso : Option Nat := none
  fNumber : Option Nat := none
  exposureTime : Option String := none
  focalLength : Option Nat := none
  focalLengthIn35mm : Option Nat := none
  flash : Option String := none
  whiteBalance : Option String := none
  meteringMode : Option String := none
  exposureMode : Option String := none
  sceneType : Option String := none
  dateTime : Option String := none
  dateTimeOriginal : Option String := none
  dateTimeDigitized : Option String := none
  gps : Option (Int × Int × Option Int) := none
  orientation : Option Nat := none
  colorSpace : Option String := none
  pixelXDimension : Option Nat := none
  pixelYDimension : Option Nat := none
  xResolution : Option Nat := none
  yResolution : Option Nat := none
  resolutionUnit : Option String := none
  lensModel : Option String := none
  lensMake : Option String := none
  lensSerialNumber : Option String := none
deriving DecidableEq, Repr

/-! ### EXIF formatting helpers (source lines 586 to 655) -/

/-- Exposure-time formatting of the source.  The source renders fractional
float exposure times as the rounded reciprocal; with the Nat carrier the
sub-one branch is degenerate (the source divides floats there) and no claim
examines it.  The caller only invokes this function on non-zero values. -/
def formatExposureTime (t : Nat) : String :=
  if 1 ≤ t then ⟨(Nat.repr t).data ++ ['s']⟩
  else ⟨'1' :: '/' :: (Nat.repr (1 / t)).data ++ ['s']⟩

/-- Flash formatting: tests the least-significant bit. -/
def formatFlash (flash : Option Nat) : Option String :=
  match flash with
  | none => none
  | some f => some (if f % 2 = 1 then "Flash fired" else "Flash did not fire")

/-- White-balance formatting. -/
def formatWhiteBalance (wb : Option Nat) : Option String :=
  match wb with
  | none => none
  | some w => some (if w = 0 then "Auto" else "Manual")

/-- Metering-mode table lookup; the source guards with truthiness, so the
value zero yields no result, and an unknown key yields no result. -/
def formatMeteringMode (mode : Option Nat) : Option String :=
  match mode with
  | some 1 => some "Average"
  | some 2 => some "Center-weighted average"
  | some 3 => some "Spot"
  | some 4 => some "Multi-spot"
  | some 5 => some "Pattern"
  | some 6 => some "Partial"
  | _ => none

/-- Exposure-mode table lookup; the source guards against undefined only, so
the value zero is looked up. -/
def formatExposureMode (mode : Option Nat) : Option String :=
  match mode with
  | some 0 => some "Auto exposure"
  | some 1 => some "Manual exposure"
  | some 2 => some "Auto bracket"
  | _ => none

/-- Scene-capture-type table lookup; guarded against undefined only. -/
def formatSceneType (scene : Option Nat) : Option String :=
  match scene with
  | some 0 => some "Standard"
  | some 1 => some "Landscape"
  | some 2 => some "Portrait"
  | some 3 => some "Night scene"
  | _ => none

/-- Color-space formatting: the two special codes, then a generic rendering
guarded by truthiness. -/
def formatColorSpace (colorSpace : Option Nat) : Option String :=
  match colorSpace with
  | some 1 => some "sRGB"
  | some 65535 => some "Uncalibrated"
  | some v => if v = 0 then none else some ("ColorSpace " ++ Nat.repr v)
  | none => none

/-- Resolution-unit table lookup, guarded by truthiness. -/
def formatResolutionUnit (unit : Option Nat) : Option String :=
  match unit with
  | some 1 => some "None"
  | some 2 => some "inches"
  | some 3 => some "cm"
  | _ => none

/-- Compression table lookup, guarded by truthiness. -/
def formatCompression (compression : Option Nat) : Option String :=
  match compression with
  | some 1 => some "Uncompressed"
  | some 6 => some "JPEG"
  | _ => none

/-- Processed EXIF block of the image extractor (source lines 282 to 314),
built when the exifr collaborator returned a tag mapping.  The pixel
dimension fields fall back to the decoded image dimensions by JavaScript
truthiness, and the GPS block exists only when both coordinates are truthy. -/
def processExif (dims : Nat × Nat) (e : ExifRaw) : ExifProcessed :=
  { make := e.Make, model := e.Model, software := e.Software,
    iso := e.ISO, fNumber := e.FNumber,
    exposureTime :=
      match e.ExposureTime with
      | some t => if t = 0 then none else some (formatExposureTime t)
      | none => none,
    focalLength := e.FocalLength, focalLengthIn35mm := e.FocalLengthIn35mmFormat,
    flash := formatFlash e.Flash,
    whiteBalance := formatWhiteBalance e.WhiteBalance,
    meteringMode := formatMeteringMode e.MeteringMode,
    exposureMode := formatExposureMode e.ExposureMode,
    sceneType := formatSceneType e.SceneCaptureType,
    dateTime := e.DateTime, dateTimeOriginal := e.DateTimeOriginal,
    dateTimeDigitized := e.DateTimeDigitized,
    gps :=
      match e.GPSLatitude, e.GPSLongitude with
      | some la, some lo =>
        if la ≠ 0 ∧ lo ≠ 0 then some (la, lo, e.GPSAltitude) else none
      | _, _ => none,
    orientation := e.Orientation,
    colorSpace := formatColorSpace e.ColorSpace,
    pixelXDimension := some (jsOrNum e.ImageWidth dims.1),
    pixelYDimension := some (jsOrNum e.ImageHeight dims.2),
    xResolution := e.XResolution, yResolution := e.YResolution,
    resolutionUnit := formatResolutionUnit e.ResolutionUnit,
    lensModel := e.LensModel, lensMake := e.LensMake,
    lensSerialNumber := e.LensSerialNumber }

/-! ### Audio data model (source: the music-metadata collaborator output and
EnhancedAudioMetadata, lines 50 to 82 and 334 to 476) -/

/-- Embedded picture as delivered by the music-metadata collaborator. -/
structure AudioPicture where
  format : String
  data : List Nat
  description : Option String := none
  type : Option String := none
deriving DecidableEq, Repr

/-- Track or disk numbering block of the music-metadata common tags; both
components are nullable. -/
structure TrackInfo where
  no : Option Nat := none
  of : Option Nat := none
deriving DecidableEq, Repr

/-- Comment or lyrics entry of the music-metadata common tags: either a bare
string or an object with an optional text field. -/
inductive TagValue where
  | str (s : String)
  | obj (text : Option String)
deriving DecidableEq, Repr

/-- Rendering of a comment or lyrics entry by the source: a bare string is
kept, an object contributes its text field with empty-string fallback. -/
def tagValueText : TagValue → String
  | .str s => s
  | .obj t => t.getD ""

/-- Common tag block of the music-metadata collaborator output. -/
structure AudioCommon where
  title : Option String := none
  artist : Option String := none
  album : Option String := none
  albumartist : Option String := none
  year : Option Nat := none
  date : Option String := none
  genre : Option (List String) := none
  track : Option TrackInfo := none
  disk : Option TrackInfo := none
  composer : Option (List String) := none
  conductor : Option (List String) := none
  lyricist : Option (List String) := none
  writer : Option (List String) := none
  publisher : Option (List String) := none
  label : Option (List String) := none
  copyright : Option (List String) := none
  encodedby : Option String := none
  comment : Option (List TagValue) := none
  lyrics : Option (List TagValue) := none
  picture : Option (List AudioPicture) := none
  isrc : Option (List String) := none
  barcode : Option (List String) := none
  catalognumber : Option (List String) := none
  musicbrainz_artistid : Option (List String) := none
  musicbrainz_albumid : Option (List String) := none
  musicbrainz_trackid : Option (List String) := none
  musicbrainz_releasegroupid : Option (List String) := none
deriving DecidableEq, Repr

/-- Format block of the music-metadata collaborator output.  Duration and
bitrate are floating-point in the source and only pass through the
pipeline, so they are carried as Nat. -/
structure AudioFormat where
  container : Option String := none
  codec : Option String := none
  codecProfile : Option String := none
  lossless : Option Bool := none
  numberOfChannels : Option Nat := none
  sampleRate : Option Nat := none
  bitsPerSample : Option Nat := none
  duration : Option Nat := none
  bitrate : Option Nat := none
deriving DecidableEq, Repr

/-- Native tag map of the music-metadata collaborator output, restricted to
the two keys the source reads; each key, when present, holds a frame list
whose entries the source never inspects. -/
structure AudioNative where
  ID3v2 : Option (List Unit) := none
  ID3v1 : Option (List Unit) := none
deriving DecidableEq, Repr

/-- Full output of the music-metadata parseBuffer collaborator. -/
structure AudioParsed where
  common : AudioCommon := {}
  format : AudioFormat := {}
  native : AudioNative := {}
deriving DecidableEq, Repr

/-- Format sub-record of EnhancedAudioMetadata (source lines 437 to 446). -/
structure FormatBlock where
  container : Option String := none
  codec : Option String := none
  lossless : Option Bool := none
  numberOfChannels : Option Nat := none
  bitsPerSample : Option Nat := none
  sampleRate : Option Nat := none
  duration : Option Nat := none
  bitrate : Option Nat := none
deriving DecidableEq, Repr

/-- Re-wrapped embedded picture of EnhancedAudioMetadata
(source lines 448 to 453). -/
structure PictureOut where
  format : String
  data : List Nat
  description : Option String := none
  type : Option String := none
deriving DecidableEq, Repr

/-- MPEG info block of EnhancedAudioMetadata; starts as an empty object in
the source, so every field is optional. -/
structure MpegInfo where
  version : Option String := none
  layer : Option String := none
  channelMode : Option String := none
  emphasis : Option String := none
  copyrightFlag : Option Bool := none
  originalMedia : Option Bool := none
deriving DecidableEq, Repr

/-- ID3 info block of EnhancedAudioMetadata; starts as an empty object. -/
structure Id3Info where
  version : Option String := none
  size : Option Nat := none
  flags : Option (List String) := none
deriving DecidableEq, Repr

/-- Picture info entry of EnhancedAudioMetadata (source lines 362 to 367). -/
structure PictureInfo where
  mimeType : String
  type : String
  description : String
  size : Nat
deriving DecidableEq, Repr

/-- MusicBrainz id block of EnhancedAudioMetadata (source lines 462 to 467);
always built, each field optional. -/
structure MusicBrainzIds where
  artistId : Option String := none
  albumId : Option String := none
  trackId : Option String := none
  releaseGroupId : Option String := none
deriving DecidableEq, Repr

/-! ### Input file, collaborator environment, and the unified metadata
record -/

/-- Sniffing result of the file-type collaborator (fileTypeFromBuffer). -/
structure DetectedType where
  mime : String
  ext : String
deriving DecidableEq, Repr

/-- Browser File object as the pipeline reads it: declared name, byte size,
declared MIME type, last-modified timestamp, and the asynchronous buffer
read, whose rejection is the error branch. -/
structure FileModel where
  name : String
  size : Nat
  type : String
  lastModified : Int
  readBuffer : Except String (List Nat)

/-- Duration and pixel dimensions delivered by the media element once its
metadata is ready.  Duration is floating-point in the source and only
passes through, so it is carried as Nat. -/
structure VideoData where
  duration : Nat
  width : Nat
  height : Nat
deriving DecidableEq, Repr

/-- Output of the pdf-lib collaborator: page count plus the optional
info-dictionary getters the source calls.  The two dates are Date objects
in the source, only passed through, so they are carried as Int timestamps. -/
structure PdfDoc where
  pageCount : Nat
  title : Option String := none
  author : Option String := none
  subject : Option String := none
  creator : Option String := none
  producer : Option String := none
  creationDate : Option Int := none
  modificationDate : Option Int := none
  keywords : Option String := none
deriving DecidableEq, Repr

/-- Collaborator environment: every external facility the pipeline calls,
each a black box with the contract the source relies on.  Facilities whose
JavaScript counterpart can reject or throw return Except; the image decode
promise always resolves (its error handler resolves zero dimensions), and
object-URL minting never throws. -/
structure Env where
  fileTypeFromBuffer : List Nat → Except String (Option DetectedType)
  digestMD5 : List Nat → Except String (List Nat)
  createObjectURL : FileModel → String
  createObjectURLBlob : List Nat → String → String
  imageDecode : FileModel → Nat × Nat
  parseExif : List Nat → Except String (Option ExifRaw)
  parseBuffer : List Nat → String → Nat → Except String AudioParsed
  videoLoad : FileModel → Except String (Option VideoData)
  pdfLoad : List Nat → Except String PdfDoc

/-- Unified metadata record.  The source types the per-category results by
structural subtyping over a common FileMetadata base; the embedding uses a
single record holding the base fields and every optional category-specific
field, absent fields being none.  Field groups in order: base
(EnhancedFileMetadata), image, audio, video (duration and dimensions are
shared field names in the source), document, and text. -/
structure EnhancedFileMetadata where
  name : String
  size : Nat
  type : String
  lastModified : Int
  extension : String
  mimeType : String
  detectedMimeType : Option String := none
  realFileType : Option String := none
  checksum : Option String := none
  rawHeader : Option String := none
  dimensions : Option (Nat × Nat) := none
  megapixels : Option Nat := none
  exif : Option ExifProcessed := none
  colorSpace : Option String := none
  bitsPerSample : Option Nat := none
  compression : Option String := none
  encoding : Option EncodingInfo := none
  jfif : Option JfifInfo := none
  duration : Option Nat := none
  bitrate : Option Nat := none
  sampleRate : Option Nat := none
  channels : Option Nat := none
  codecProfile : Option String := none
  title : Option String := none
  artist : Option String := none
  album : Option String := none
  albumArtist : Option String := none
  year : Option Nat := none
  date : Option String := none
  genre : Option (List String) := none
  track : Option (Nat × Option Nat) := none
  disk : Option (Nat × Option Nat) := none
  composer : Option String := none
  conductor : Option String := none
  lyricist : Option String := none
  writer : Option String := none
  publisher : Option String := none
  label : Option String := none
  copyright : Option String := none
  encodedBy : Option String := none
  comment : Option (List String) := none
  lyrics : Option (List String) := none
  format : Option FormatBlock := none
  picture : Option (List PictureOut) := none
  mpegInfo : Option MpegInfo := none
  id3Info : Option Id3Info := none
  pictureInfo : Option (List PictureInfo) := none
  isrc : Option String := none
  barcode : Option String := none
  catalognumber : Option String := none
  musicbrainz : Option MusicBrainzIds := none
  pageCount : Option Nat := none
  author : Option String := none
  subject : Option String := none
  creator : Option String := none
  producer : Option String := none
  creationDate : Option Int := none
  modificationDate : Option Int := none
  keywords : Option (List String) := none
  pdfVersion : Option String := none
  isEncrypted : Option Bool := none
  charset : Option String := none
  lineEndings : Option String := none
  bom : Option Bool := none
  wordCount : Option Nat := none
  lineCount : Option Nat := none
  characterCount : Option Nat := none

/-- Terminal analysis record (FileAnalysisResult of the source). -/
structure FileAnalysisResult where
  metadata : EnhancedFileMetadata
  preview : Option String := none
  thumbnail : Option String := none
  category : FileCategory
  errors : Option (List String) := none
  warnings : Option (List String) := none

/-! ### Checksum and raw header (source lines 84 to 108) -/

/-- Conversion to a signed 32-bit integer, as JavaScript ToInt32 performed
by the bitwise operators of the fallback hash. -/
def toInt32 (n : Int) : Int :=
  let m := ((n % 4294967296) + 4294967296) % 4294967296
  if m < 2147483648 then m else m - 4294967296

/-- One step of the fallback hash of calculateChecksum: shift left by five
(a 32-bit operation), subtract, add the byte, and truncate to 32 bits. -/
def simpleHashStep (hash : Int) (b : Nat) : Int :=
  toInt32 (toInt32 (hash * 32) - hash + (b : Int))

/-- MD5 checksum with fallback (calculateChecksum): the digest collaborator
result rendered as lower-case hex pairs, or, when the digest facility is
unavailable, the absolute value of the running 32-bit hash rendered as hex
and left-padded to eight digits. -/
def calculateChecksum (env : Env) (buffer : List Nat) : String :=
  match env.digestMD5 buffer with
  | .ok hashBytes => ⟨(hashBytes.map hexByte).flatten⟩
  | .error _ =>
    ⟨padStart (natToHex (buffer.foldl simpleHashStep 0).natAbs) 8 '0'⟩

/-- Raw header extraction (extractRawHeader): the first length bytes as
upper-case hex pairs joined with spaces. -/
def extractRawHeader (buffer : List Nat) (length : Nat) : String :=
  ⟨joinSpace ((buffer.take length).map (fun byte => (hexByte byte).map upperChar))⟩

/-! ### Category extractors (source lines 214 to 584) -/

/-- Image extractor (extractEnhancedImageMetadata).  The image decode
promise always resolves (zero dimensions on error); a thrown exifr parse is
the only failure the catch of the source can see, and it returns the base
record.  Megapixels is a one-decimal float rendering of the pixel product in
the source; the embedding stores the raw pixel product, which no claim
examines, and keeps the truthiness guard.  The JPEG structural analysis runs
only for a declared JPEG MIME type or a jpg or jpeg extension; otherwise
the jpegInfo object stays empty, so both blocks stay absent. -/
def extractEnhancedImageMetadata (env : Env) (file : FileModel) (buffer : List Nat)
    (base : EnhancedFileMetadata) : EnhancedFileMetadata :=
  let dimensions := env.imageDecode file
  let megapixels : Option Nat :=
    if dimensions.1 ≠ 0 ∧ dimensions.2 ≠ 0 then some (dimensions.1 * dimensions.2) else none
  match env.parseExif buffer with
  | .error _ => base
  | .ok exifData =>
    let jpegInfo : JpegResult :=
      if file.type = "image/jpeg" ∨ base.extension = "jpg" ∨ base.extension = "jpeg" then
        analyzeJPEGStructure buffer
      else {}
    { base with
      dimensions := some dimensions,
      megapixels := megapixels,
      exif := exifData.map (processExif dimensions),
      colorSpace := formatColorSpace (exifData.bind (·.ColorSpace)),
      bitsPerSample := exifData.bind (·.BitsPerSample),
      compression := formatCompression (exifData.bind (·.Compression)),
      encoding := jpegInfo.encoding,
      jfif := jpegInfo.jfif }

/-- Result pair of the audio extractor. -/
structure AudioExtractResult where
  metadata : EnhancedFileMetadata
  albumArt : Option String := none

/-- Track or disk rendering of the source: present only when the number is
truthy, with the total collapsing to absent when falsy. -/
def renderTrack (t : Option TrackInfo) : Option (Nat × Option Nat) :=
  match t with
  | some info =>
    match info.no with
    | some n =>
      if n = 0 then none
      else some (n, match info.of with | some 0 => none | o => o)
    | none => none
  | none => none

/-- Audio extractor (extractEnhancedAudioMetadata).  A thrown container
parse is caught and yields the base record with no album art; on success the
base record is spread into the enriched record.  The MPEG info and ID3 info
blocks are always attached (they start as empty objects in the source), the
picture info list is always attached, and the MusicBrainz block is always
built. -/
def extractEnhancedAudioMetadata (env : Env) (file : FileModel) (buffer : List Nat)
    (base : EnhancedFileMetadata) : AudioExtractResult :=
  match env.parseBuffer buffer file.type file.size with
  | .error _ => { metadata := base }
  | .ok parsed =>
    let common := parsed.common
    let format := parsed.format
    let native := parsed.native
    let albumArt : Option String :=
      match common.picture with
      | some (pic :: _) => some (env.createObjectURLBlob pic.data pic.format)
      | _ => none
    let pictureInfo : List PictureInfo :=
      match common.picture with
      | some (pic :: rest) =>
        (pic :: rest).map (fun p =>
          { mimeType := p.format,
            type := jsOrDefault p.type "Cover",
            description := jsOrDefault p.description "Cover",
            size := p.data.length })
      | _ => []
    let mpegRec : MpegInfo :=
      if format.container = some "MPEG" ∨ file.type = "audio/mpeg" then
        { version :=
            some (if (format.codec.map
                (fun c => containsSub "Layer III".data c.data)).getD false
              then "MPEG-1" else "MPEG"),
          layer :=
            some (if (format.codec.map
                (fun c => containsSub "Layer III".data c.data)).getD false
              then "3" else "Unknown"),
          channelMode := some (if format.numberOfChannels = some 2 then "Stereo" else "Mono"),
          emphasis := some "None",
          copyrightFlag := some false,
          originalMedia := some true }
      else {}
    let id3Rec : Id3Info :=
      if (native.ID3v2.isSome ∨ native.ID3v1.isSome) ∧ (native.ID3v2.bind List.head?).isSome then
        { version := some "2.3", size := some 0, flags := some [] }
      else {}
    let audioMetadata : EnhancedFileMetadata :=
      { base with
        duration := format.duration,
        bitrate := format.bitrate,
        sampleRate := format.sampleRate,
        channels := format.numberOfChannels,
        codecProfile := format.codecProfile,
        title := common.title,
        artist := common.artist,
        album := common.album,
        albumArtist := common.albumartist,
        year := common.year,
        date := common.date,
        genre := common.genre,
        track := renderTrack common.track,
        disk := renderTrack common.disk,
        composer := common.composer.bind List.head?,
        conductor := common.conductor.bind List.head?,
        lyricist := common.lyricist.bind List.head?,
        writer := common.writer.bind List.head?,
        publisher := common.publisher.bind List.head?,
        label := common.label.bind List.head?,
        copyright := common.copyright.bind List.head?,
        encodedBy := common.encodedby,
        comment := common.comment.map (List.map tagValueText),
        lyrics := common.lyrics.map (List.map tagValueText),
        format := some
          { container := format.container,
            codec := format.codec,
            lossless := format.lossless,
            numberOfChannels := format.numberOfChannels,
            bitsPerSample := format.bitsPerSample,
            sampleRate := format.sampleRate,
            duration := format.duration,
            bitrate := format.bitrate },
        picture := common.picture.map (List.map (fun p =>
          { format := p.format, data := p.data,
            description := p.description, type := p.type })),
        mpegInfo := some mpegRec,
        id3Info := some id3Rec,
        pictureInfo := some pictureInfo,
        isrc := common.isrc.bind List.head?,
        barcode := common.barcode.bind List.head?,
        catalognumber := common.catalognumber.bind List.head?,
        musicbrainz := some
          { artistId := common.musicbrainz_artistid.bind List.head?,
            albumId := common.musicbrainz_albumid.bind List.head?,
            trackId := common.musicbrainz_trackid.bind List.head?,
            releaseGroupId := common.musicbrainz_releasegroupid.bind List.head? } }
    { metadata := audioMetadata, albumArt := albumArt }

/-- Video extractor (extractEnhancedVideoMetadata): the media element either
reports metadata (enrich), signals an error (resolve the base record), or
the surrounding try fails (catch, also the base record). -/
def extractEnhancedVideoMetadata (env : Env) (file : FileModel)
    (base : EnhancedFileMetadata) : EnhancedFileMetadata :=
  match env.videoLoad file with
  | .ok (some v) => { base with duration := some v.duration, dimensions := some (v.width, v.height) }
  | .ok none => base
  | .error _ => base

/-- Document extractor (extractAdvancedDocumentMetadata): PDF files (by
declared MIME type or extension) are loaded through pdf-lib, whose failure
is caught and yields the base record; string info fields collapse empty
strings to absent by JavaScript truthiness, keywords are split on commas
and trimmed, and the version and encryption fields are the constants of the
source.  Non-PDF documents get the base record unchanged. -/
def extractAdvancedDocumentMetadata (env : Env) (file : FileModel) (buffer : List Nat)
    (base : EnhancedFileMetadata) : EnhancedFileMetadata :=
  if file.type = "application/pdf" ∨ base.extension = "pdf" then
    match env.pdfLoad buffer with
    | .error _ => base
    | .ok pdfDoc =>
      { base with
        pageCount := some pdfDoc.pageCount,
        title := jsOrUndef pdfDoc.title,
        author := jsOrUndef pdfDoc.author,
        subject := jsOrUndef pdfDoc.subject,
        creator := jsOrUndef pdfDoc.creator,
        producer := jsOrUndef pdfDoc.producer,
        creationDate := pdfDoc.creationDate,
        modificationDate := pdfDoc.modificationDate,
        keywords :=
          match pdfDoc.keywords with
          | some k =>
            if k = "" then none
            else some ((splitChar ',' k.data).map (fun chunk => ⟨jsTrim chunk⟩))
          | none => none,
        pdfVersion := some "1.4",
        isEncrypted := some false }
  else base

/-- UTF-8 BOM signature. -/
def bomBytes : List Nat := [0xEF, 0xBB, 0xBF]

/-- Text decoding of the buffer, modelling the WHATWG TextDecoder with the
default UTF-8 configuration on the ASCII payloads the claims exercise: a
leading UTF-8 BOM is stripped, remaining bytes map to their code points.
Multi-byte UTF-8 sequences are not decoded (no claim involves them), and
the decoder never throws. -/
def textDecode (b : List Nat) : List Char :=
  let rest := if bomBytes.isPrefixOf b then b.drop 3 else b
  rest.map Char.ofNat

/-- Line-ending classification of the text extractor: carriage-return plus
line-feed first, then bare line feed, then bare carriage return. -/
def detectLineEndings (text : List Char) : String :=
  if containsSub ['\r', '\n'] text then "CRLF (Windows)"
  else if containsSub ['\n'] text then "LF (Unix)"
  else if containsSub ['\r'] text then "CR (Mac)"
  else "unknown"

/-- Text extractor (extractTextMetadata): decode, split lines on line feed,
split words on whitespace runs discarding empty tokens (splitting on every
whitespace character and filtering empties yields the same token list as
splitting on runs), detect the BOM on the raw bytes, and classify line
endings.  Character count is the code-unit length of the decoded text,
which on the ASCII payloads the claims exercise is the character count.
Nothing inside can throw, so the catch of the source is unreachable. -/
def extractTextMetadata (file : FileModel) (buffer : List Nat)
    (base : EnhancedFileMetadata) : EnhancedFileMetadata :=
  let text := textDecode buffer
  let lines := splitChar '\n' text
  let words := (splitPred jsIsSpace text).filter (fun w => w.length > 0)
  let hasBom := 3 ≤ buffer.length ∧ bomBytes.isPrefixOf buffer
  { base with
    charset := some "UTF-8",
    lineEndings := some (detectLineEndings text),
    bom := some (decide hasBom),
    wordCount := some words.length,
    lineCount := some lines.length,
    characterCount := some text.length }

/-! ### Result assembler (source: analyzeFileEnhanced, lines 110 to 212) -/

/-- Warning text of the declared-versus-detected comparison
(source line 184). -/
def mismatchMsg (detected declared : String) : String :=
  "File type mismatch: detected " ++ detected ++ ", but file extension suggests " ++ declared

/-- Base metadata record built once per file before category-specific
extraction (source lines 131 to 142). -/
def mkBaseMetadata (env : Env) (file : FileModel) (buffer : List Nat)
    (detectedType : Option DetectedType) : EnhancedFileMetadata :=
  { name := file.name,
    size := file.size,
    type := file.type,
    lastModified := file.lastModified,
    extension := jsExtension file.name,
    mimeType := file.type,
    detectedMimeType := detectedType.map (·.mime),
    realFileType := detectedType.map (·.ext),
    checksum := some (calculateChecksum env buffer),
    rawHeader := some (extractRawHeader buffer 64) }

/-- Category dispatch of the assembler (the switch of source lines 149 to
180), producing the metadata record, the preview handle, and the thumbnail
handle.  Image, audio, and video mint a preview object URL; audio may carry
album art as the thumbnail; archive and other fall to the default branch
with the bare base record. -/
def dispatchExtractor (env : Env) (file : FileModel) (buffer : List Nat)
    (base : EnhancedFileMetadata) :
    FileCategory → EnhancedFileMetadata × Option String × Option String
  | .image =>
    (extractEnhancedImageMetadata env file buffer base, some (env.createObjectURL file), none)
  | .audio =>
    let audioResult := extractEnhancedAudioMetadata env file buffer base
    (audioResult.metadata, some (env.createObjectURL file), audioResult.albumArt)
  | .video =>
    (extractEnhancedVideoMetadata env file base, some (env.createObjectURL file), none)
  | .document => (extractAdvancedDocumentMetadata env file buffer base, none, none)
  | .text => (extractTextMetadata file buffer base, none, none)
  | .archive => (base, none, none)
  | .other => (base, none, none)

/-- Successful body of the assembler after the two suspension points that
can fail (buffer read and content sniffing) have delivered their values:
checksum, raw header, category, base metadata, dispatch, the
declared-versus-detected warning (pushed only when a sniff result exists,
its MIME differs from the declared one, and the declared one is non-empty),
and the final record, whose error and warning lists collapse to none when
empty.  No error is ever pushed on this path, so the errors field is the
empty-list collapse of the empty list. -/
def assembleResult (env : Env) (file : FileModel) (buffer : List Nat)
    (detectedType : Option DetectedType) : FileAnalysisResult :=
  let checksum := calculateChecksum env buffer
  let rawHeader := extractRawHeader buffer 64
  let category :=
    determineFileCategory (effectiveMime (detectedType.map (·.mime)) file.type) file.name
  let baseMetadata : EnhancedFileMetadata :=
    { name := file.name,
      size := file.size,
      type := file.type,
      lastModified := file.lastModified,
      extension := jsExtension file.name,
      mimeType := file.type,
      detectedMimeType := detectedType.map (·.mime),
      realFileType := detectedType.map (·.ext),
      checksum := some checksum,
      rawHeader := some rawHeader }
  let mpt := dispatchExtractor env file buffer baseMetadata category
  let errors : List String := []
  let warnings : List String :=
    match detectedType with
    | some d => if d.mime ≠ file.type ∧ file.type ≠ "" then [mismatchMsg d.mime file.type] else []
    | none => []
  { metadata := mpt.1,
    preview := mpt.2.1,
    thumbnail := mpt.2.2,
    category := category,
    errors := if errors.length > 0 then some errors else none,
    warnings := if warnings.length > 0 then some warnings else none }

/-- Try-block of analyzeFileEnhanced: the buffer read and the content sniff
are the only operations whose failure escapes to the outer catch (the
checksum has an internal fallback, the extractors catch internally, and
object-URL minting does not throw), so the body is their sequencing
followed by the pure assembly. -/
def analyzeBody (env : Env) (file : FileModel) : Except String FileAnalysisResult :=
  match file.readBuffer with
  | .error e => .error e
  | .ok buffer =>
    match env.fileTypeFromBuffer buffer with
    | .error e => .error e
    | .ok detectedType => .ok (assembleResult env file buffer detectedType)

/-- Entry point (analyzeFileEnhanced): the whole body sits in the outer
failure boundary; a thrown error anywhere is converted into a result that
carries only the six plain base fields (name, size, declared type,
last-modified, lower-cased extension, declared MIME type), the category
other, and a single error message built from the thrown message.  The
function is total: it always returns a FileAnalysisResult. -/
def analyzeFileEnhanced (env : Env) (file : FileModel) : FileAnalysisResult :=
  match analyzeBody env file with
  | .ok r => r
  | .error e =>
    { metadata :=
        { name := file.name,
          size := file.size,
          type := file.type,
          lastModified := file.lastModified,
          extension := jsExtension file.name,
          mimeType := file.type },
      category := .other,
      errors := some ["Failed to analyze file: " ++ e] }

/-! ### Concrete fixtures for witnesses and counterexamples -/

/-- Environment whose collaborators all succeed with trivial values: the
sniffer finds nothing, the digest is empty, decodes report zero dimensions,
parsers return empty mappings. -/
def envTriv : Env :=
  { fileTypeFromBuffer := fun _ => .ok none,
    digestMD5 := fun _ => .ok [],
    createObjectURL := fun _ => "blob:preview",
    createObjectURLBlob := fun _ _ => "blob:art",
    imageDecode := fun _ => (0, 0),
    parseExif := fun _ => .ok none,
    parseBuffer := fun _ _ _ => .ok {},
    videoLoad := fun _ => .ok none,
    pdfLoad := fun _ => .ok { pageCount := 1 } }

/-- Environment whose four fallible parsing collaborators all throw. -/
def envFail : Env :=
  { fileTypeFromBuffer := fun _ => .ok none,
    digestMD5 := fun _ => .ok [],
    createObjectURL := fun _ => "blob:preview",
    createObjectURLBlob := fun _ _ => "blob:art",
    imageDecode := fun _ => (0, 0),
    parseExif := fun _ => .error "exif parse failed",
    parseBuffer := fun _ _ _ => .error "audio parse failed",
    videoLoad := fun _ => .error "video decode failed",
    pdfLoad := fun _ => .error "pdf load failed" }

/-- Environment whose sniffer reports JPEG content for every buffer. -/
def envSniffJpeg : Env :=
  { fileTypeFromBuffer := fun _ => .ok (some { mime := "image/jpeg", ext := "jpg" }),
    digestMD5 := fun _ => .ok [],
    createObjectURL := fun _ => "blob:preview",
    createObjectURLBlob := fun _ _ => "blob:art",
    imageDecode := fun _ => (0, 0),
    parseExif := fun _ => .ok none,
    parseBuffer := fun _ _ _ => .ok {},
    videoLoad := fun _ => .ok none,
    pdfLoad := fun _ => .ok { pageCount := 1 } }

/-- File whose buffer read rejects. -/
def fileReadError : FileModel :=
  { name := "f.bin", size := 3, type := "application/octet-stream",
    lastModified := 0, readBuffer := .error "read failed" }

/-- File with an empty declared MIME type whose bytes are the JPEG
start-of-image marker. -/
def fileEmptyType : FileModel :=
  { name := "photo", size := 2, type := "",
    lastModified := 0, readBuffer := .ok [0xFF, 0xD8] }

/-- File declared as plain text whose bytes are the JPEG start-of-image
marker. -/
def fileTxtJpeg : FileModel :=
  { name := "notes.txt", size := 2, type := "text/plain",
    lastModified := 0, readBuffer := .ok [0xFF, 0xD8] }

/-- File with a neutral declared type and extension whose bytes are the JPEG
start-of-image marker. -/
def fileBinSniffJpeg : FileModel :=
  { name := "shot.bin", size := 2, type := "application/octet-stream",
    lastModified := 0, readBuffer := .ok [0xFF, 0xD8] }

/-- Trivial file with an empty buffer. -/
def trivFile : FileModel :=
  { name := "empty", size := 0, type := "",
    lastModified := 0, readBuffer := .ok [] }

/-- Trivial base metadata record. -/
def metaTriv : EnhancedFileMetadata :=
  { name := "empty", size := 0, type := "",
    lastModified := 0, extension := "", mimeType := "" }

/-- Byte buffer of the five-character text a, space, b, line feed, c. -/
def txtBufLF : List Nat := [0x61, 0x20, 0x62, 0x0A, 0x63]

/-- Byte buffer of the UTF-8 BOM followed by hi, carriage return, line feed,
there. -/
def txtBufBOM : List Nat :=
  [0xEF, 0xBB, 0xBF, 0x68, 0x69, 0x0D, 0x0A, 0x74, 0x68, 0x65, 0x72, 0x65]

/-- Byte buffer of a text containing both a CRLF pair and a bare line
feed. -/
def txtBufMixed : List Nat := [0x61, 0x0D, 0x0A, 0x62, 0x0A, 0x63]

/-- Canonical well-formed JPEG prefix: start-of-image, APP0 with length 16,
JFIF identifier, version bytes 1 and 1, unit byte 1, horizontal and
vertical densities 72, and zero thumbnail dimensions. -/
def jfifCanonicalBuf : List Nat :=
  [0xFF, 0xD8, 0xFF, 0xE0, 0x00, 0x10,
   0x4A, 0x46, 0x49, 0x46, 0x00,
   0x01, 0x01, 0x01, 0x00, 0x48, 0x00, 0x48, 0x00, 0x00]

/-- Projection of the ten base fields shared by every metadata record. -/
structure BaseView where
  name : String
  size : Nat
  type : String
  lastModified : Int
  extension : String
  mimeType : String
  detectedMimeType : Option String
  realFileType : Option String
  checksum : Option String
  rawHeader : Option String
deriving DecidableEq

/-- Base-field projection of a metadata record. -/
def baseOf (m : EnhancedFileMetadata) : BaseView :=
  { name := m.name, size := m.size, type := m.type, lastModified := m.lastModified,
    extension := m.extension, mimeType := m.mimeType,
    detectedMimeType := m.detectedMimeType, realFileType := m.realFileType,
    checksum := m.checksum, rawHeader := m.rawHeader }

/-! ### Helper lemmas -/

/-- Two prefixes that disagree on their first character cannot both match:
if the first one is a prefix of a string, the second one is not. -/
theorem jsStartsWith_ne_first (m p q : String) (cp cq : Char) (ps qs : List Char)
    (hp : p.data = cp :: ps) (hq : q.data = cq :: qs) (hne : cp ≠ cq)
    (h : jsStartsWith m p = true) : jsStartsWith m q = false := by
  unfold jsStartsWith at h ⊢
  rw [hp] at h
  rw [hq]
  cases hm : m.data with
  | nil => rw [hm] at h; simp [List.isPrefixOf] at h
  | cons c cs =>
    rw [hm] at h
    simp only [List.isPrefixOf, Bool.and_eq_true, beq_iff_eq] at h
    rcases h with ⟨h1, -⟩
    subst h1
    have h2 : (cq == cp) = false := by
      simp only [beq_eq_false_iff_ne]
      exact fun hqc => hne hqc.symm
    simp [List.isPrefixOf, h2]

/-- The image extractor preserves every base field. -/
theorem baseOf_image_extract (env : Env) (file : FileModel) (buffer : List Nat)
    (base : EnhancedFileMetadata) :
    baseOf (extractEnhancedImageMetadata env file buffer base) = baseOf base := by
  unfold extractEnhancedImageMetadata
  split <;> rfl

/-- The audio extractor preserves every base field. -/
theorem baseOf_audio_extract (env : Env) (file : FileModel) (buffer : List Nat)
    (base : EnhancedFileMetadata) :
    baseOf (extractEnhancedAudioMetadata env file buffer base).metadata = baseOf base := by
  unfold extractEnhancedAudioMetadata
  split <;> rfl

/-- The video extractor preserves every base field. -/
theorem baseOf_video_extract (env : Env) (file : FileModel)
    (base : EnhancedFileMetadata) :
    baseOf (extractEnhancedVideoMetadata env file base) = baseOf base := by
  unfold extractEnhancedVideoMetadata
  split <;> rfl

/-- The document extractor preserves every base field. -/
theorem baseOf_document_extract (env : Env) (file : FileModel) (buffer : List Nat)
    (base : EnhancedFileMetadata) :
    baseOf (extractAdvancedDocumentMetadata env file buffer base) = baseOf base := by
  unfold extractAdvancedDocumentMetadata
  split
  · split <;> rfl
  · rfl

/-- The text extractor preserves every base field. -/
theorem baseOf_text_extract (file : FileModel) (buffer : List Nat)
    (base : EnhancedFileMetadata) :
    baseOf (extractTextMetadata file buffer base) = baseOf base := by
  rfl

/-! ### Claim theorems -/

/-- C1: analyzeFileEnhanced always returns an AnalysisResult (it is a total
function into FileAnalysisResult, so no exception reaches the caller);
whenever an error is thrown anywhere in the pipeline body (for example a
failed buffer read), the returned result carries only the six plain base
fields (name, size, declared type, last-modified date, lower-cased
extension, declared MIME type) with every other metadata field absent,
category other, no preview, no thumbnail, no warnings, and an errors list
containing exactly one element. -/
theorem analyzeFileEnhanced_outer_catch (env : Env) (file : FileModel) (e : String)
    (h : analyzeBody env file = .error e) :
    analyzeFileEnhanced env file =
      { metadata :=
          { name := file.name, size := file.size, type := file.type,
            lastModified := file.lastModified, extension := jsExtension file.name,
            mimeType := file.type },
        category := .other,
        errors := some ["Failed to analyze file: " ++ e] } ∧
    ∃ msg, (analyzeFileEnhanced env file).errors = some [msg] := by
  unfold analyzeFileEnhanced
  rw [h]
  exact ⟨rfl, ⟨"Failed to analyze file: " ++ e, rfl⟩⟩

/-- Witness for C1: a file whose buffer read rejects, under the trivial
environment. -/
theorem analyzeFileEnhanced_outer_catch_witness :
    analyzeBody envTriv fileReadError = .error "read failed" ∧
    (analyzeFileEnhanced envTriv fileReadError =
      { metadata :=
          { name := fileReadError.name, size := fileReadError.size,
            type := fileReadError.type, lastModified := fileReadError.lastModified,
            extension := jsExtension fileReadError.name, mimeType := fileReadError.type },
        category := .other,
        errors := some ["Failed to analyze file: " ++ "read failed"] } ∧
      ∃ msg, (analyzeFileEnhanced envTriv fileReadError).errors = some [msg]) :=
  ⟨rfl, analyzeFileEnhanced_outer_catch envTriv fileReadError "read failed" rfl⟩

/-- C5: for every environment and file, the errors field and the warnings
field of the returned analysis record are never the empty list: an empty
condition list collapses to an absent field. -/
theorem errors_warnings_never_empty_list (env : Env) (file : FileModel) :
    (analyzeFileEnhanced env file).errors ≠ some [] ∧
    (analyzeFileEnhanced env file).warnings ≠ some [] := by
  unfold analyzeFileEnhanced analyzeBody assembleResult
  rcases hb : file.readBuffer with e | buffer
  · constructor <;> simp [hb]
  · rcases hs : env.fileTypeFromBuffer buffer with e | det
    · constructor <;> simp [hb, hs]
    · rcases det with _ | d
      · constructor <;> simp [hb, hs]
      · by_cases hw : d.mime ≠ file.type ∧ file.type ≠ ""
        · constructor <;> simp [hb, hs, hw]
        · constructor <;> simp [hb, hs, hw]

/-- Counterexample for C7 as stated: on the empty buffer (which does not
start with the start-of-image marker) the analyzer yields a result whose
jfif and encoding blocks are both present (as empty objects), not absent. -/
theorem analyzeJPEGStructure_empty_blocks_present :
    (analyzeJPEGStructure []).jfif ≠ none ∧
    (analyzeJPEGStructure []).encoding ≠ none ∧
    analyzeJPEGStructure [] = { encoding := some {}, jfif := some {} } := by
  exact ⟨by decide, by decide, by decide⟩

/-- C7 amended: on the canonical well-formed JFIF buffer the analyzer
reports version 1.01, resolution unit inches, and a 72 by 72 resolution;
and on any buffer not starting with the two start-of-image bytes (including
one too short to hold them) it returns, without throwing, the initial
result in which the jfif and encoding blocks are present but every field
inside them is absent. -/
theorem analyzeJPEGStructure_behavior :
    ((analyzeJPEGStructure jfifCanonicalBuf).jfif =
      some { version := some "1.01", resolutionUnit := some "inches",
             xResolution := some 72, yResolution := some 72 }) ∧
    (∀ b, getUint16? b 0 ≠ some 0xFFD8 →
      analyzeJPEGStructure b = { encoding := some {}, jfif := some {} }) := by
  constructor
  · decide
  · intro b h
    unfold analyzeJPEGStructure
    cases hg : getUint16? b 0 with
    | none => rfl
    | some w =>
      have hw : w ≠ 0xFFD8 := by
        intro hEq
        exact h (hg.trans (by rw [hEq]))
      simp [hw]

/-- Witness for C7: a two-byte buffer that is not a JPEG start-of-image
marker. -/
theorem analyzeJPEGStructure_behavior_witness :
    getUint16? [0, 1] 0 ≠ some 0xFFD8 ∧
    analyzeJPEGStructure [0, 1] = { encoding := some {}, jfif := some {} } :=
  ⟨by decide, analyzeJPEGStructure_behavior.2 [0, 1] (by decide)⟩

/-- C2: classification precedence.  If the effective MIME type (sniffed,
falling back to declared when sniffing found nothing) starts with one of
the four recognised prefixes, the corresponding category is returned;
otherwise the static extension tables are consulted on the lower-cased
filename suffix; otherwise other.  The declared type
application/octet-stream with extension flac classifies as audio, and
extension xyz123 with no recognised MIME classifies as other. -/
theorem determineFileCategory_precedence :
    (∀ sniffed declared filename,
      (jsStartsWith (effectiveMime sniffed declared) "image/" = true →
        determineFileCategory (effectiveMime sniffed declared) filename = .image) ∧
      (jsStartsWith (effectiveMime sniffed declared) "video/" = true →
        determineFileCategory (effectiveMime sniffed declared) filename = .video) ∧
      (jsStartsWith (effectiveMime sniffed declared) "audio/" = true →
        determineFileCategory (effectiveMime sniffed declared) filename = .audio) ∧
      (jsStartsWith (effectiveMime sniffed declared) "text/" = true →
        determineFileCategory (effectiveMime sniffed declared) filename = .text) ∧
      (jsStartsWith (effectiveMime sniffed declared) "image/" = false →
       jsStartsWith (effectiveMime sniffed declared) "video/" = false →
       jsStartsWith (effectiveMime sniffed declared) "audio/" = false →
       jsStartsWith (effectiveMime sniffed declared) "text/" = false →
        determineFileCategory (effectiveMime sniffed declared) filename =
          extTableCategory (jsExtension filename))) ∧
    (∀ e, documentExts.contains e = false → archiveExts.contains e = false →
      imageExts.contains e = false → videoExts.contains e = false →
      audioExts.contains e = false → textExts.contains e = false →
      extTableCategory e = .other) ∧
    determineFileCategory (effectiveMime none "application/octet-stream") "song.flac" =
      .audio ∧
    determineFileCategory (effectiveMime none "application/octet-stream") "file.xyz123" =
      .other := by
  refine ⟨fun sniffed declared filename => ?_,
    fun e h1 h2 h3 h4 h5 h6 => ?_, by decide, by decide⟩
  · set m := effectiveMime sniffed declared with hm
    refine ⟨fun h => ?_, fun h => ?_, fun h => ?_, fun h => ?_, fun g1 g2 g3 g4 => ?_⟩
    · unfold determineFileCategory
      simp [h]
    · have hi := jsStartsWith_ne_first m "video/" "image/" 'v' 'i' "ideo/".data "mage/".data
        rfl rfl (by decide) h
      unfold determineFileCategory
      simp [h, hi]
    · have hi := jsStartsWith_ne_first m "audio/" "image/" 'a' 'i' "udio/".data "mage/".data
        rfl rfl (by decide) h
      have hv := jsStartsWith_ne_first m "audio/" "video/" 'a' 'v' "udio/".data "ideo/".data
        rfl rfl (by decide) h
      unfold determineFileCategory
      simp [h, hi, hv]
    · have hi := jsStartsWith_ne_first m "text/" "image/" 't' 'i' "ext/".data "mage/".data
        rfl rfl (by decide) h
      have hv := jsStartsWith_ne_first m "text/" "video/" 't' 'v' "ext/".data "ideo/".data
        rfl rfl (by decide) h
      have ha := jsStartsWith_ne_first m "text/" "audio/" 't' 'a' "ext/".data "udio/".data
        rfl rfl (by decide) h
      unfold determineFileCategory
      simp [h, hi, hv, ha]
    · unfold determineFileCategory extTableCategory
      simp [g1, g2, g3, g4]
  · unfold extTableCategory
    simp at h1 h2 h3 h4 h5 h6
    simp [h1, h2, h3, h4, h5, h6]

/-- Witness for C2: a sniffed audio MIME type classifies as audio through
the first precedence tier. -/
theorem determineFileCategory_precedence_witness :
    jsStartsWith (effectiveMime (some "audio/flac") "x") "audio/" = true ∧
    determineFileCategory (effectiveMime (some "audio/flac") "x") "f" = .audio :=
  ⟨by decide,
   (determineFileCategory_precedence.1 (some "audio/flac") "x" "f").2.2.1 (by decide)⟩

/-- C9: when the effective MIME type carries none of the four recognised
prefixes, a filename with lower-cased extension txt classifies as document
and not as text, because txt appears in both the document and the text
extension tables and the document table is consulted first. -/
theorem txt_extension_document_precedence :
    ("txt" ∈ documentExts ∧ "txt" ∈ textExts) ∧
    (∀ m filename,
      jsStartsWith m "image/" = false → jsStartsWith m "video/" = false →
      jsStartsWith m "audio/" = false → jsStartsWith m "text/" = false →
      jsExtension filename = "txt" →
      determineFileCategory m filename = .document ∧
      determineFileCategory m filename ≠ .text) := by
  refine ⟨by decide, fun m filename h1 h2 h3 h4 he => ?_⟩
  have hd : ("txt" : String) ∈ documentExts := by decide
  unfold determineFileCategory
  constructor <;> simp [h1, h2, h3, h4, he, hd]

/-- Witness for C9: a neutral MIME type with a txt filename. -/
theorem txt_extension_document_precedence_witness :
    jsStartsWith "application/octet-stream" "image/" = false ∧
    jsStartsWith "application/octet-stream" "video/" = false ∧
    jsStartsWith "application/octet-stream" "audio/" = false ∧
    jsStartsWith "application/octet-stream" "text/" = false ∧
    jsExtension "notes.txt" = "txt" ∧
    (determineFileCategory "application/octet-stream" "notes.txt" = .document ∧
     determineFileCategory "application/octet-stream" "notes.txt" ≠ .text) :=
  ⟨by decide, by decide, by decide, by decide, by decide,
   txt_extension_document_precedence.2 "application/octet-stream" "notes.txt"
     (by decide) (by decide) (by decide) (by decide) (by decide)⟩

/-- Counterexample for C3 as stated: a file whose declared MIME type is
empty and whose bytes sniff as image/jpeg.  The sniffed type is present,
non-empty, and differs from the declared type, yet the pipeline records no
warning, because the source additionally requires the declared type to be
non-empty. -/
theorem mismatch_warning_requires_declared_type :
    envSniffJpeg.fileTypeFromBuffer [0xFF, 0xD8] =
      .ok (some { mime := "image/jpeg", ext := "jpg" }) ∧
    fileEmptyType.readBuffer = .ok [0xFF, 0xD8] ∧
    fileEmptyType.type = "" ∧
    ("image/jpeg" : String) ≠ "" ∧
    "image/jpeg" ≠ fileEmptyType.type ∧
    (analyzeFileEnhanced envSniffJpeg fileEmptyType).warnings = none :=
  ⟨rfl, rfl, rfl, by decide, by decide, rfl⟩

/-- C3 amended: the type-mismatch warning is recorded exactly when the
sniffed MIME type is present, differs from the declared MIME type, and the
declared MIME type is non-empty; in particular a file declared text/plain
whose bytes sniff as image/jpeg is classified as image and receives the
warning. -/
theorem mismatch_warning_characterization :
    (∀ env file buffer det,
      file.readBuffer = .ok buffer →
      env.fileTypeFromBuffer buffer = .ok det →
      ((analyzeFileEnhanced env file).warnings.isSome = true ↔
        ∃ d, det = some d ∧ d.mime ≠ file.type ∧ file.type ≠ "")) ∧
    (analyzeFileEnhanced envSniffJpeg fileTxtJpeg).category = .image ∧
    (analyzeFileEnhanced envSniffJpeg fileTxtJpeg).warnings =
      some [mismatchMsg "image/jpeg" "text/plain"] := by
  refine ⟨fun env file buffer det hb hs => ?_, rfl, rfl⟩
  unfold analyzeFileEnhanced analyzeBody assembleResult
  simp only [hb, hs]
  rcases det with _ | d
  · simp
  · by_cases hw : d.mime ≠ file.type ∧ file.type ≠ ""
    · simp [hw]
    · simp [hw]

/-- Witness for C3: the amended characterisation applied to the plain-text
file with JPEG bytes. -/
theorem mismatch_warning_characterization_witness :
    fileTxtJpeg.readBuffer = .ok [0xFF, 0xD8] ∧
    envSniffJpeg.fileTypeFromBuffer [0xFF, 0xD8] =
      .ok (some { mime := "image/jpeg", ext := "jpg" }) ∧
    ((analyzeFileEnhanced envSniffJpeg fileTxtJpeg).warnings.isSome = true ↔
      ∃ d, (some { mime := "image/jpeg", ext := "jpg" } : Option DetectedType) = some d ∧
        d.mime ≠ fileTxtJpeg.type ∧ fileTxtJpeg.type ≠ "") :=
  ⟨rfl, rfl,
   mismatch_warning_characterization.1 envSniffJpeg fileTxtJpeg [0xFF, 0xD8]
     (some { mime := "image/jpeg", ext := "jpg" }) rfl rfl⟩

/-- C4: no category extractor lets an exception past its own boundary (each
is a total function into its result type), and when its fallible
collaborator throws, the extractor returns the base metadata unchanged: the
audio extractor yields the base record with no album art and no
audio-specific fields, the image extractor the base record, the video
extractor the base record, and the document extractor the base record (for
PDF input the load failure is caught; for non-PDF input no enrichment is
attempted at all).  The text extractor performs no fallible call, so its
catch is unreachable. -/
theorem extractors_degrade_to_base (env : Env) (file : FileModel) (buffer : List Nat)
    (base : EnhancedFileMetadata) (eA eI eV eP : String)
    (hA : env.parseBuffer buffer file.type file.size = .error eA)
    (hI : env.parseExif buffer = .error eI)
    (hV : env.videoLoad file = .error eV)
    (hP : env.pdfLoad buffer = .error eP) :
    extractEnhancedAudioMetadata env file buffer base =
      { metadata := base, albumArt := none } ∧
    extractEnhancedImageMetadata env file buffer base = base ∧
    extractEnhancedVideoMetadata env file base = base ∧
    extractAdvancedDocumentMetadata env file buffer base = base := by
  refine ⟨?_, ?_, ?_, ?_⟩
  · unfold extractEnhancedAudioMetadata
    rw [hA]
  · unfold extractEnhancedImageMetadata
    rw [hI]
  · unfold extractEnhancedVideoMetadata
    rw [hV]
  · unfold extractAdvancedDocumentMetadata
    by_cases h : file.type = "application/pdf" ∨ base.extension = "pdf"
    · simp [h, hP]
    · simp [h]

/-- Witness for C4: the environment whose four parsing collaborators all
throw, on the trivial file and base record. -/
theorem extractors_degrade_to_base_witness :
    envFail.parseBuffer [] trivFile.type trivFile.size = .error "audio parse failed" ∧
    envFail.parseExif [] = .error "exif parse failed" ∧
    envFail.videoLoad trivFile = .error "video decode failed" ∧
    envFail.pdfLoad [] = .error "pdf load failed" ∧
    (extractEnhancedAudioMetadata envFail trivFile [] metaTriv =
      { metadata := metaTriv, albumArt := none } ∧
    extractEnhancedImageMetadata envFail trivFile [] metaTriv = metaTriv ∧
    extractEnhancedVideoMetadata envFail trivFile metaTriv = metaTriv ∧
    extractAdvancedDocumentMetadata envFail trivFile [] metaTriv = metaTriv) :=
  ⟨rfl, rfl, rfl, rfl,
   extractors_degrade_to_base envFail trivFile [] metaTriv
     "audio parse failed" "exif parse failed" "video decode failed" "pdf load failed"
     rfl rfl rfl rfl⟩

/-- C6: the text extractor reports two lines, three words, five characters,
Unix line endings, and no byte-order mark on the five-byte text a, space,
b, line feed, c; it reports a byte-order mark and Windows line endings on
the UTF-8 BOM followed by hi, CRLF, there; and for every buffer whose
decoded text contains a CRLF pair, the reported style is CRLF, because the
classification tests CRLF before LF before CR. -/
theorem extractTextMetadata_behavior :
    (∀ file base,
      (extractTextMetadata file txtBufLF base).lineCount = some 2 ∧
      (extractTextMetadata file txtBufLF base).wordCount = some 3 ∧
      (extractTextMetadata file txtBufLF base).characterCount = some 5 ∧
      (extractTextMetadata file txtBufLF base).lineEndings = some "LF (Unix)" ∧
      (extractTextMetadata file txtBufLF base).bom = some false) ∧
    (∀ file base,
      (extractTextMetadata file txtBufBOM base).bom = some true ∧
      (extractTextMetadata file txtBufBOM base).lineEndings = some "CRLF (Windows)") ∧
    (∀ file buffer base,
      containsSub ['\r', '\n'] (textDecode buffer) = true →
      (extractTextMetadata file buffer base).lineEndings = some "CRLF (Windows)") := by
  refine ⟨fun file base => ⟨rfl, rfl, rfl, rfl, rfl⟩,
    fun file base => ⟨rfl, rfl⟩, fun file buffer base h => ?_⟩
  unfold extractTextMetadata detectLineEndings
  simp [h]

/-- Witness for C6: a buffer containing both a CRLF pair and a bare line
feed is reported as CRLF. -/
theorem extractTextMetadata_behavior_witness :
    containsSub ['\r', '\n'] (textDecode txtBufMixed) = true ∧
    (extractTextMetadata trivFile txtBufMixed metaTriv).lineEndings =
      some "CRLF (Windows)" :=
  ⟨by decide, extractTextMetadata_behavior.2.2 trivFile txtBufMixed metaTriv (by decide)⟩

/-- C8: every category extractor preserves the ten base fields it receives
(extractors only ever extend the base record with optional
category-specific fields), and on the successful pipeline path the metadata
of the returned result carries exactly the base fields of the base record
built before extraction. -/
theorem base_fields_preserved :
    (∀ env file buffer base,
      baseOf (extractEnhancedImageMetadata env file buffer base) = baseOf base ∧
      baseOf (extractEnhancedAudioMetadata env file buffer base).metadata = baseOf base ∧
      baseOf (extractEnhancedVideoMetadata env file base) = baseOf base ∧
      baseOf (extractAdvancedDocumentMetadata env file buffer base) = baseOf base ∧
      baseOf (extractTextMetadata file buffer base) = baseOf base) ∧
    (∀ env file buffer det,
      file.readBuffer = .ok buffer →
      env.fileTypeFromBuffer buffer = .ok det →
      baseOf (analyzeFileEnhanced env file).metadata =
        baseOf (mkBaseMetadata env file buffer det)) := by
  constructor
  · intro env file buffer base
    exact ⟨baseOf_image_extract env file buffer base,
      baseOf_audio_extract env file buffer base,
      baseOf_video_extract env file base,
      baseOf_document_extract env file buffer base,
      baseOf_text_extract file buffer base⟩
  · intro env file buffer det hb hs
    unfold analyzeFileEnhanced analyzeBody assembleResult
    simp only [hb, hs]
    set c := determineFileCategory (effectiveMime (det.map (·.mime)) file.type) file.name
      with hc
    cases c with
    | image =>
      simp only [dispatchExtractor]
      exact baseOf_image_extract env file buffer _
    | video =>
      simp only [dispatchExtractor]
      exact baseOf_video_extract env file _
    | audio =>
      simp only [dispatchExtractor]
      exact baseOf_audio_extract env file buffer _
    | document =>
      simp only [dispatchExtractor]
      exact baseOf_document_extract env file buffer _
    | archive =>
      simp only [dispatchExtractor]
      rfl
    | text =>
      simp only [dispatchExtractor]
      exact baseOf_text_extract file buffer _
    | other =>
      simp only [dispatchExtractor]
      rfl

/-- Witness for C8: the successful pipeline path on the trivial file under
the trivial environment. -/
theorem base_fields_preserved_witness :
    trivFile.readBuffer = .ok [] ∧
    envTriv.fileTypeFromBuffer [] = .ok none ∧
    baseOf (analyzeFileEnhanced envTriv trivFile).metadata =
      baseOf (mkBaseMetadata envTriv trivFile [] none) :=
  ⟨rfl, rfl, base_fields_preserved.2 envTriv trivFile [] none rfl rfl⟩

/-- C10: the JPEG marker-segment structural analysis runs only when the
declared MIME type is image/jpeg or the lower-cased extension is jpg or
jpeg: when neither holds, the jfif and encoding blocks of the image
extractor result stay absent whatever the buffer contains; yet a file whose
bytes sniff as image/jpeg is still classified as image through the MIME
prefix tier. -/
theorem jpeg_structure_gating :
    (∀ env file buffer base,
      file.type ≠ "image/jpeg" → base.extension ≠ "jpg" → base.extension ≠ "jpeg" →
      base.jfif = none → base.encoding = none →
      (extractEnhancedImageMetadata env file buffer base).jfif = none ∧
      (extractEnhancedImageMetadata env file buffer base).encoding = none) ∧
    (∀ env file buffer d,
      file.readBuffer = .ok buffer →
      env.fileTypeFromBuffer buffer = .ok (some d) →
      d.mime = "image/jpeg" →
      (analyzeFileEnhanced env file).category = .image) := by
  constructor
  · intro env file buffer base h1 h2 h3 h4 h5
    have hcond : ¬(file.type = "image/jpeg" ∨ base.extension = "jpg" ∨
        base.extension = "jpeg") := by
      rintro (hc | hc | hc)
      exacts [h1 hc, h2 hc, h3 hc]
    unfold extractEnhancedImageMetadata
    rcases hp : env.parseExif buffer with e | exifData
    · simp [h4, h5]
    · simp [hcond]
  · intro env file buffer d hb hs hm
    unfold analyzeFileEnhanced analyzeBody assembleResult
    simp only [hb, hs]
    have hne : ("image/jpeg" : String) ≠ "" := by decide
    have himg : jsStartsWith "image/jpeg" "image/" = true := by decide
    simp [effectiveMime, hm, hne, determineFileCategory, himg]

/-- Witness for C10: a file with neutral declared type and extension whose
bytes sniff as JPEG is classified as image, and the image extractor run on
a base record without the JPEG trigger leaves both structural blocks
absent. -/
theorem jpeg_structure_gating_witness :
    (trivFile.type ≠ "image/jpeg" ∧ metaTriv.extension ≠ "jpg" ∧
     metaTriv.extension ≠ "jpeg" ∧ metaTriv.jfif = none ∧ metaTriv.encoding = none ∧
     ((extractEnhancedImageMetadata envTriv trivFile jfifCanonicalBuf metaTriv).jfif = none ∧
      (extractEnhancedImageMetadata envTriv trivFile jfifCanonicalBuf metaTriv).encoding =
        none)) ∧
    (fileBinSniffJpeg.readBuffer = .ok [0xFF, 0xD8] ∧
     envSniffJpeg.fileTypeFromBuffer [0xFF, 0xD8] =
       .ok (some { mime := "image/jpeg", ext := "jpg" }) ∧
     (analyzeFileEnhanced envSniffJpeg fileBinSniffJpeg).category = .image) :=
  ⟨⟨by decide, by decide, by decide, rfl, rfl,
    jpeg_structure_gating.1 envTriv trivFile jfifCanonicalBuf metaTriv
      (by decide) (by decide) (by decide) rfl rfl⟩,
   ⟨rfl, rfl,
    jpeg_structure_gating.2 envSniffJpeg fileBinSniffJpeg [0xFF, 0xD8]
      { mime := "image/jpeg", ext := "jpg" } rfl rfl rfl⟩⟩
